import Mathlib

/-!
Verification development for the a2a-pdlc-playground agent pipeline.

The sources embedded here are the module-level tool functions and the turn
methods of:
* `src/agents/python/agents/sde_agent/agent.py` (`generate_code`, `run_tests`,
  `return_solution`, `SDEAgent.invoke`, `SDEAgent.stream`);
* `src/agents/implementation/agent_builder/agent.py` (`generate_tests`, the
  QA `run_tests` at lines 53-74, `return_feedback`, the second `run_tests` at
  lines 102-124 which re-binds the module name, `AgentBuilderTemplate.invoke`,
  `AgentBuilderTemplate.stream`);
* `src/agents/implementation/coordinator_agent/agent.py`
  (`CoordinatorAgent.invoke` / `.stream`, textually identical to the
  agent-builder ones).

Python dicts with string keys and string values are modelled as association
lists; the module-level sets `task_ids` / `qa_task_ids` are modelled as a
`Registry` record threaded explicitly through the stateful functions.  The
random draw of `random.randint(1000000, 9999999)` is an explicit parameter of
the generation steps, and Python `str` on a nonnegative integer is embedded as
decimal rendering (`natToStr`).
-/

namespace Pdlc

/-- A Python dict with string keys and string values, as passed around by the
pipeline (the `details` records).  `lookup` finds the first binding. -/
abbrev Details := List (String × String)

/-- Python `d.get(k, dflt)` on a string-valued dict. -/
def getD (d : Details) (k dflt : String) : String :=
  match d.lookup k with
  | some v => v
  | none => dflt

/-- Python `d[k] = v`: the new binding shadows any earlier one for `lookup`,
which is the only read the embedded code performs. -/
def setKey (d : Details) (k v : String) : Details := (k, v) :: d

/-- The character Python `str` prints for one decimal digit. -/
def digitChr : Nat → Char
  | 0 => '0'
  | 1 => '1'
  | 2 => '2'
  | 3 => '3'
  | 4 => '4'
  | 5 => '5'
  | 6 => '6'
  | 7 => '7'
  | 8 => '8'
  | _ => '9'

/-- Decimal digits of `n`, most significant first, computed with an explicit
fuel so that the recursion is structural (the fuel is always sufficient: each
step divides `n` by 10, see `digitsVal_natToDigitsGo`). -/
def natToDigitsGo : Nat → Nat → List Char
  | 0, n => [digitChr (n % 10)]
  | fuel + 1, n =>
    if n < 10 then [digitChr n]
    else natToDigitsGo fuel (n / 10) ++ [digitChr (n % 10)]

/-- Decimal digits of `n`, most significant first. -/
def natToDigits (n : Nat) : List Char := natToDigitsGo n n

/-- Python `str(n)` for a nonnegative integer `n`. -/
def natToStr (n : Nat) : String := ⟨natToDigits n⟩

/-- Numeric value of one decimal digit character. -/
def digitVal (c : Char) : Nat := c.toNat - 48

/-- Numeric value of a most-significant-first decimal digit list. -/
def digitsVal (l : List Char) : Nat := l.foldl (fun acc c => 10 * acc + digitVal c) 0

/-- The identifier string produced by `generate_code`:
`"task_id_" + str(random.randint(1000000, 9999999))`, with the random draw an
explicit parameter. -/
def taskIdOf (draw : Nat) : String := "task_id_" ++ natToStr draw

/-- The identifier string produced by `generate_tests`:
`"qa_task_id_" + str(random.randint(1000000, 9999999))`. -/
def qaTaskIdOf (draw : Nat) : String := "qa_task_id_" ++ natToStr draw

/-- The module-level mutable sets of the agent modules: `task_ids` (coding-task
namespace) and `qa_task_ids` (QA-task namespace).  In the Python source these
are per-module globals; the functions embedded below touch exactly the fields
their module defines. -/
structure Registry where
  task_ids : List String
  qa_task_ids : List String
deriving DecidableEq

/-- Both sets start empty at module load. -/
def Registry.init : Registry := ⟨[], []⟩

/-- Return value of `generate_code` (a dict with keys `task_id`, `code`,
`task_details`); note the type has no error variant because the source has no
error path. -/
structure CodeResult where
  task_id : String
  code : String
  task_details : Details
deriving DecidableEq

/-- `generate_code(task_details)` from `sde_agent/agent.py` lines 19-50.
Issues a fresh id into `task_ids`, stamps it into the caller's dict
(`task_details['task_id'] = task_id` mutates the argument in place, so the
caller's dict after the call is exactly the `task_details` field of the
result), and builds the placeholder artifact with `'N/A'` defaults. -/
def generate_code (draw : Nat) (reg : Registry) (task_details : Details) :
    CodeResult × Registry :=
  let task_id := taskIdOf draw
  let reg2 := { reg with task_ids := task_id :: reg.task_ids }
  let stamped := setKey task_details "task_id" task_id
  let generated_code :=
    "# Auto-generated code for task " ++ task_id ++ "\n" ++
    "# Language: " ++ getD stamped "language" "N/A" ++ "\n" ++
    "# Requirements: " ++ getD stamped "requirements" "N/A" ++ "\n" ++
    "# Constraints: " ++ getD stamped "constraints" "N/A" ++ "\n\n" ++
    "def solution_function():\n    # TODO: Implement the solution here\n    pass\n"
  (⟨task_id, generated_code, stamped⟩, reg2)

/-- Return value of `generate_tests` (keys `qa_task_id`, `tests`,
`qa_details`); again no error variant exists in the source. -/
structure TestsResult where
  qa_task_id : String
  tests : String
  qa_details : Details
deriving DecidableEq

/-- `generate_tests(qa_details)` from `agent_builder/agent.py` lines 19-50.
Issues a fresh id into `qa_task_ids` and stamps it into the caller's dict in
place (`qa_details['qa_task_id'] = qa_task_id`). -/
def generate_tests (draw : Nat) (reg : Registry) (qa_details : Details) :
    TestsResult × Registry :=
  let qa_task_id := qaTaskIdOf draw
  let reg2 := { reg with qa_task_ids := qa_task_id :: reg.qa_task_ids }
  let stamped := setKey qa_details "qa_task_id" qa_task_id
  let generated_tests :=
    "# Auto-generated test cases for QA task " ++ qa_task_id ++ "\n" ++
    "# Feature: " ++ getD stamped "feature" "N/A" ++ "\n" ++
    "# Test Requirements: " ++ getD stamped "test_requirements" "N/A" ++ "\n" ++
    "# Constraints: " ++ getD stamped "constraints" "N/A" ++ "\n\n" ++
    "def test_feature():\n    # TODO: Implement the actual test logic here\n    assert True\n"
  (⟨qa_task_id, generated_tests, stamped⟩, reg2)

/-- Return value of the task-id `run_tests` (keys `task_id`, `status`). -/
structure RunResult where
  task_id : String
  status : String
deriving DecidableEq

/-- `run_tests(task_id, code)` from `sde_agent/agent.py` lines 53-75; the same
text appears again in `agent_builder/agent.py` lines 102-124, where it re-binds
the module-level name `run_tests` (shadowing the QA variant defined earlier in
that file).  The function reads the registry and mutates nothing, so the
registry component of the result is the input registry. -/
def run_tests (reg : Registry) (task_id code : String) : RunResult × Registry :=
  if task_id ∉ reg.task_ids then
    (⟨task_id, "Error: Invalid task_id."⟩, reg)
  else
    (⟨task_id, "All tests passed."⟩, reg)

/-- Return value of the QA `run_tests` (keys `qa_task_id`, `status`). -/
structure QaRunResult where
  qa_task_id : String
  status : String
deriving DecidableEq

/-- `run_tests(qa_task_id, tests)` from `agent_builder/agent.py` lines 53-74:
the QA-namespace run step, checking membership in `qa_task_ids`.  (At module
level this binding is later shadowed by the second `run_tests` definition at
lines 102-124, embedded above as `run_tests`.) -/
def run_tests_qa (reg : Registry) (qa_task_id tests : String) : QaRunResult × Registry :=
  if qa_task_id ∉ reg.qa_task_ids then
    (⟨qa_task_id, "Error: Invalid qa_task_id."⟩, reg)
  else
    (⟨qa_task_id, "All tests passed."⟩, reg)

/-- Return value of `return_solution` (keys `task_id`, `code`, `test_status`,
`task_details`). -/
structure Solution where
  task_id : String
  code : String
  test_status : String
  task_details : Details
deriving DecidableEq

/-- `return_solution(task_details, code_info, test_results)` from
`sde_agent/agent.py` lines 78-100 (and identically `agent_builder/agent.py`
lines 127-149): pure aggregation reading no module state, with `''` defaults
for the fields read from `code_info` / `test_results` and the `task_details`
dict passed through unchanged. -/
def return_solution (task_details code_info test_results : Details) : Solution :=
  ⟨getD code_info "task_id" "",
   getD code_info "code" "",
   getD test_results "status" "",
   task_details⟩

/-- Model of `json.dumps` on a flat string-valued dict.  The exact escaping
performed by the external library does not matter to any claim; the embedding
only relies on this being a function of the dict. -/
def jsonDumps (d : Details) : String :=
  "\x7b" ++
    String.intercalate ", " (d.map (fun kv => "\"" ++ kv.1 ++ "\": \"" ++ kv.2 ++ "\"")) ++
    "\x7d"

/-- Return value of `return_feedback` (keys `qa_task_id`, `feedback`). -/
structure Feedback where
  qa_task_id : String
  feedback : String
deriving DecidableEq

/-- `return_feedback(qa_details, tests_info, feedback_instructions=None)` from
`agent_builder/agent.py` lines 77-99: pure aggregation; `qa_task_id` defaults
to `''`, the status inside the feedback text defaults to the sentinel
`'No status provided'`, and the trailing clause is included only when
`feedback_instructions` is truthy (a non-None, nonempty string). -/
def return_feedback (qa_details tests_info : Details)
    (feedback_instructions : Option String) : Feedback :=
  ⟨getD qa_details "qa_task_id" "",
   "Test execution status: " ++ getD tests_info "status" "No status provided" ++ ". " ++
   "QA Details: " ++ jsonDumps qa_details ++ ". " ++
   (match feedback_instructions with
    | some s => if s = "" then "" else "Additional feedback: " ++ s
    | none => "")⟩

/-- A part of an ADK event's content: an optional text and an optional
function response (whose `model_dump()` payload is opaque here). -/
structure Part where
  text : Option String
  function_response : Option String
deriving DecidableEq

/-- The content of an ADK event: a list of parts (`None` content and an empty
part list are both falsy in the Python guards, so `none` and `some ⟨[]⟩` behave
alike there). -/
structure Content where
  parts : List Part
deriving DecidableEq

/-- One event produced by the external runner, as observed by the turn
methods: whether `event.is_final_response()` holds, and its content. -/
structure AdkEvent where
  is_final_response : Bool
  content : Option Content
deriving DecidableEq

/-- Python truthiness of `p.text`: true iff the text is present and nonempty. -/
def textTruthy (p : Part) : Bool :=
  match p.text with
  | some s => s ≠ ""
  | none => false

/-- The list comprehension `[p.text for p in parts if p.text]`. -/
def partTexts (parts : List Part) : List String :=
  parts.filterMap (fun p =>
    match p.text with
    | some s => if s = "" then none else some s
    | none => none)

/-- `invoke(query, session_id)` of `AgentBuilderTemplate` (lines 170-189), of
`SDEAgent` (lines 119-138) and of `CoordinatorAgent` (lines 39-59), restricted
to its output computation: given the materialized list of events produced by
the runner for the turn, it returns `''` when there are no events, the last
event has no content, or the content has no parts, and otherwise joins the
truthy part texts of the last event with newlines.  (Session resolution and
the runner itself are external collaborators.) -/
def invoke (events : List AdkEvent) : String :=
  match events.getLast? with
  | none => ""
  | some e =>
    match e.content with
    | none => ""
    | some c =>
      if c.parts.isEmpty then ""
      else String.intercalate "\n" (partTexts c.parts)

/-- The terminal payload a streamed turn attaches to its final event: either
joined text, or the `model_dump()` of a function response, or the Python
`AttributeError` fault raised by
`next((p.function_response.model_dump() for p in event.content.parts))` when
the first part carries no function response although a later one does. -/
inductive ResponseVal where
  | text (s : String)
  | structured (payload : String)
  | fault
deriving DecidableEq

/-- One event yielded by `stream`: either a progress dict
`(is_task_complete := false, updates := ...)` or the terminal dict
`(is_task_complete := true, content := ...)`. -/
inductive TurnEvent where
  | progress (updates : String)
  | complete (content : ResponseVal)
deriving DecidableEq

/-- The `is_task_complete` field of a yielded event. -/
def TurnEvent.is_task_complete : TurnEvent → Bool
  | .progress _ => false
  | .complete _ => true

/-- The `response` computation of the final-response branch of `stream`
(`agent_builder/agent.py` lines 208-220 and identically in the other two
agents): joined text when the first part has truthy text, otherwise the first
part's function response when some part has one (a fault when the first part
has none), otherwise the empty string. -/
def finalResponse (e : AdkEvent) : ResponseVal :=
  match e.content with
  | some c =>
    match c.parts with
    | p :: _ =>
      if textTruthy p then .text (String.intercalate "\n" (partTexts c.parts))
      else if c.parts.any (fun q => q.function_response.isSome) then
        match p.function_response with
        | some fr => .structured fr
        | none => .fault
      else .text ""
    | [] => .text ""
  | none => .text ""

/-- The event `stream` yields for one runner event: terminal iff the runner
event is a final response, otherwise a progress notice with the agent's fixed
updates message (`"Processing the QA request..."` in the agent builder,
`"Processing the SDE request..."` in the SDE and coordinator agents). -/
def streamEventOf (updates : String) (e : AdkEvent) : TurnEvent :=
  if e.is_final_response then .complete (finalResponse e) else .progress updates

/-- `stream(query, session_id)` of `AgentBuilderTemplate` (lines 191-229), of
`SDEAgent` (lines 140-178) and of `CoordinatorAgent` (lines 61-99), restricted
to its event production: the `async for` yields exactly one output event per
runner event, in order, with no break after a terminal event. -/
def stream (updates : String) (events : List AdkEvent) : List TurnEvent :=
  events.map (streamEventOf updates)

/-- The streaming shape demanded by the spec: zero or more events with
`is_task_complete = false` followed by exactly one with
`is_task_complete = true`, and nothing after it. -/
def streamShape : List TurnEvent → Bool
  | [] => false
  | [e] => e.is_task_complete
  | e :: r :: rest => !e.is_task_complete && streamShape (r :: rest)

/-- The condition under which the runner's event sequence drives the turn to a
single terminal event: it is nonempty, its last event is a final response, and
no earlier event is. -/
def oneFinalLast : List AdkEvent → Bool
  | [] => false
  | [e] => e.is_final_response
  | e :: r :: rest => !e.is_final_response && oneFinalLast (r :: rest)

/-- One registry-touching pipeline call within a run, with the random draws of
the generation steps made explicit. -/
inductive PipelineOp where
  | genCode (draw : Nat) (details : Details)
  | genTests (draw : Nat) (details : Details)
  | runTask (task_id code : String)
  | runQa (qa_task_id tests : String)

/-- The registry after one pipeline call. -/
def stepRegistry (reg : Registry) : PipelineOp → Registry
  | .genCode draw td => (generate_code draw reg td).2
  | .genTests draw qd => (generate_tests draw reg qd).2
  | .runTask task_id code => (run_tests reg task_id code).2
  | .runQa qa_task_id tests => (run_tests_qa reg qa_task_id tests).2

/-- The registry reached from module load by a sequence of pipeline calls. -/
def runTrace (ops : List PipelineOp) : Registry :=
  ops.foldl stepRegistry Registry.init

/-- The random draws consumed by the `generate_code` calls of a run. -/
def taskDraws (ops : List PipelineOp) : List Nat :=
  ops.filterMap (fun op =>
    match op with
    | .genCode d _ => some d
    | _ => none)

/-- The random draws consumed by the `generate_tests` calls of a run. -/
def qaDraws (ops : List PipelineOp) : List Nat :=
  ops.filterMap (fun op =>
    match op with
    | .genTests d _ => some d
    | _ => none)

/-- The identifiers returned by the `generate_code` calls of a run. -/
def issuedTaskIds (ops : List PipelineOp) : List String :=
  (taskDraws ops).map taskIdOf

/-- The identifiers returned by the `generate_tests` calls of a run. -/
def issuedQaTaskIds (ops : List PipelineOp) : List String :=
  (qaDraws ops).map qaTaskIdOf

/-! ## Helper lemmas -/

theorem digitVal_digitChr : ∀ d, d < 10 → digitVal (digitChr d) = d := by decide

theorem digitsVal_append_digit (l : List Char) (c : Char) :
    digitsVal (l ++ [c]) = 10 * digitsVal l + digitVal c := by
  simp [digitsVal, List.foldl_append]

theorem digitsVal_natToDigitsGo :
    ∀ fuel n, n ≤ fuel → digitsVal (natToDigitsGo fuel n) = n := by
  intro fuel
  induction fuel with
  | zero =>
    intro n hn
    have h0 : n = 0 := Nat.le_zero.mp hn
    subst h0
    simp [natToDigitsGo, digitsVal, digitVal_digitChr 0 (by omega)]
  | succ f ih =>
    intro n hn
    by_cases h : n < 10
    · simp [natToDigitsGo, h, digitsVal, digitVal_digitChr n h]
    · have hdiv : n / 10 < n := Nat.div_lt_self (by omega) (by omega)
      have hfuel : n / 10 ≤ f := by omega
      simp only [natToDigitsGo, h, if_false, if_neg]
      rw [digitsVal_append_digit, ih (n / 10) hfuel,
        digitVal_digitChr (n % 10) (Nat.mod_lt n (by omega))]
      omega

theorem digitsVal_natToDigits (n : Nat) : digitsVal (natToDigits n) = n :=
  digitsVal_natToDigitsGo n n (Nat.le_refl n)

theorem natToStr_injective : Function.Injective natToStr := by
  intro m n h
  have h2 := congrArg (fun s => digitsVal s.data) h
  simpa [natToStr, natToDigits, digitsVal_natToDigits,
    digitsVal_natToDigitsGo m m (Nat.le_refl m),
    digitsVal_natToDigitsGo n n (Nat.le_refl n)] using h2

theorem taskIdOf_injective : Function.Injective taskIdOf := by
  intro a b h
  have h2 := congrArg String.data h
  simp [taskIdOf, String.data_append] at h2
  exact natToStr_injective (String.ext h2)

theorem qaTaskIdOf_injective : Function.Injective qaTaskIdOf := by
  intro a b h
  have h2 := congrArg String.data h
  simp [qaTaskIdOf, String.data_append] at h2
  exact natToStr_injective (String.ext h2)

theorem taskIdOf_ne_qaTaskIdOf (a b : Nat) : taskIdOf a ≠ qaTaskIdOf b := by
  intro h
  have h2 := congrArg String.data h
  simp [taskIdOf, qaTaskIdOf, String.data_append] at h2

theorem run_tests_registry (reg : Registry) (task_id code : String) :
    (run_tests reg task_id code).2 = reg := by
  unfold run_tests
  split <;> rfl

theorem run_tests_qa_registry (reg : Registry) (qa_task_id tests : String) :
    (run_tests_qa reg qa_task_id tests).2 = reg := by
  unfold run_tests_qa
  split <;> rfl

theorem mem_task_ids_foldl (ops : List PipelineOp) :
    ∀ (reg : Registry) (x : String),
      x ∈ (List.foldl stepRegistry reg ops).task_ids ↔
        x ∈ reg.task_ids ∨ x ∈ issuedTaskIds ops := by
  induction ops with
  | nil => simp [issuedTaskIds, taskDraws]
  | cons op rest ih =>
    intro reg x
    cases op with
    | genCode d td =>
      simp only [List.foldl_cons, stepRegistry, generate_code, ih,
        issuedTaskIds, taskDraws, List.filterMap_cons, List.map_cons,
        List.mem_cons]
      tauto
    | genTests d qd =>
      simp only [List.foldl_cons, stepRegistry, generate_tests, ih,
        issuedTaskIds, taskDraws, List.filterMap_cons]
    | runTask t c =>
      simp only [List.foldl_cons, stepRegistry, run_tests_registry, ih,
        issuedTaskIds, taskDraws, List.filterMap_cons]
    | runQa q t =>
      simp only [List.foldl_cons, stepRegistry, run_tests_qa_registry, ih,
        issuedTaskIds, taskDraws, List.filterMap_cons]

theorem mem_qa_task_ids_foldl (ops : List PipelineOp) :
    ∀ (reg : Registry) (x : String),
      x ∈ (List.foldl stepRegistry reg ops).qa_task_ids ↔
        x ∈ reg.qa_task_ids ∨ x ∈ issuedQaTaskIds ops := by
  induction ops with
  | nil => simp [issuedQaTaskIds, qaDraws]
  | cons op rest ih =>
    intro reg x
    cases op with
    | genCode d td =>
      simp only [List.foldl_cons, stepRegistry, generate_code, ih,
        issuedQaTaskIds, qaDraws, List.filterMap_cons]
    | genTests d qd =>
      simp only [List.foldl_cons, stepRegistry, generate_tests, ih,
        issuedQaTaskIds, qaDraws, List.filterMap_cons, List.map_cons,
        List.mem_cons]
      tauto
    | runTask t c =>
      simp only [List.foldl_cons, stepRegistry, run_tests_registry, ih,
        issuedQaTaskIds, qaDraws, List.filterMap_cons]
    | runQa q t =>
      simp only [List.foldl_cons, stepRegistry, run_tests_qa_registry, ih,
        issuedQaTaskIds, qaDraws, List.filterMap_cons]

theorem mem_task_ids_runTrace (ops : List PipelineOp) (x : String) :
    x ∈ (runTrace ops).task_ids ↔ x ∈ issuedTaskIds ops := by
  simp [runTrace, mem_task_ids_foldl, Registry.init]

theorem mem_qa_task_ids_runTrace (ops : List PipelineOp) (x : String) :
    x ∈ (runTrace ops).qa_task_ids ↔ x ∈ issuedQaTaskIds ops := by
  simp [runTrace, mem_qa_task_ids_foldl, Registry.init]

/-! ## Claim C7 -/

/-- Claim C7: for every identifier never issued into the coding-task namespace
during a run, and every artifact string, `run_tests` returns the structured
outcome with status `"Error: Invalid task_id."`, executes nothing else, and
leaves the registry exactly as it was.  The source has no raise statement on
this path (and the embedding is a total function), so no fault reaches the
caller. -/
theorem c7_run_unknown_id_rejected_no_mutation (ops : List PipelineOp)
    (task_id code : String) (h : task_id ∉ issuedTaskIds ops) :
    run_tests (runTrace ops) task_id code =
      (⟨task_id, "Error: Invalid task_id."⟩, runTrace ops) := by
  have hm : task_id ∉ (runTrace ops).task_ids := by
    rw [mem_task_ids_runTrace]
    exact h
  simp [run_tests, hm]

/-- Witness for C7 at the spec's end-to-end scenario B: after one
`generate_code` call, the never-issued identifier `task_id_9999999` is
rejected with the invalid-identifier status and the registry is unchanged. -/
theorem c7_witness :
    "task_id_9999999" ∉ issuedTaskIds [PipelineOp.genCode 1234567 []] ∧
    run_tests (runTrace [PipelineOp.genCode 1234567 []]) "task_id_9999999" "any artifact" =
      (⟨"task_id_9999999", "Error: Invalid task_id."⟩,
        runTrace [PipelineOp.genCode 1234567 []]) :=
  ⟨by decide, c7_run_unknown_id_rejected_no_mutation _ _ _ (by decide)⟩

/-! ## Claim C9 -/

/-- Claim C9: namespaces are disjoint for validation.  In every reachable
registry, an identifier issued into the coding-task namespace (a member of
`task_ids`) is rejected by the QA run step (`run_tests` of
`agent_builder/agent.py` lines 53-74, whose membership check consults
`qa_task_ids`) exactly like an unknown id, and symmetrically a member of
`qa_task_ids` is rejected by the coding-task run step. -/
theorem c9_namespace_isolation (ops : List PipelineOp) (id tests code : String) :
    (id ∈ (runTrace ops).task_ids →
      run_tests_qa (runTrace ops) id tests =
        (⟨id, "Error: Invalid qa_task_id."⟩, runTrace ops)) ∧
    (id ∈ (runTrace ops).qa_task_ids →
      run_tests (runTrace ops) id code =
        (⟨id, "Error: Invalid task_id."⟩, runTrace ops)) := by
  constructor
  · intro h
    rw [mem_task_ids_runTrace] at h
    simp only [issuedTaskIds] at h
    obtain ⟨d, -, rfl⟩ := List.mem_map.mp h
    have hq : taskIdOf d ∉ (runTrace ops).qa_task_ids := by
      rw [mem_qa_task_ids_runTrace]
      intro hc
      simp only [issuedQaTaskIds] at hc
      obtain ⟨d2, -, he⟩ := List.mem_map.mp hc
      exact taskIdOf_ne_qaTaskIdOf d d2 he.symm
    simp [run_tests_qa, hq]
  · intro h
    rw [mem_qa_task_ids_runTrace] at h
    simp only [issuedQaTaskIds] at h
    obtain ⟨d, -, rfl⟩ := List.mem_map.mp h
    have ht : qaTaskIdOf d ∉ (runTrace ops).task_ids := by
      rw [mem_task_ids_runTrace]
      intro hc
      simp only [issuedTaskIds] at hc
      obtain ⟨d2, -, he⟩ := List.mem_map.mp hc
      exact taskIdOf_ne_qaTaskIdOf d2 d he
    simp [run_tests, ht]

/-- Witness for C9: in the run that issues `task_id_111` (coding namespace)
and `qa_task_id_222` (QA namespace), the coding-task id fails the QA run
step's membership check like an unknown id. -/
theorem c9_witness :
    "task_id_111" ∈ (runTrace [PipelineOp.genCode 111 [], PipelineOp.genTests 222 []]).task_ids ∧
    run_tests_qa (runTrace [PipelineOp.genCode 111 [], PipelineOp.genTests 222 []])
        "task_id_111" "some tests" =
      (⟨"task_id_111", "Error: Invalid qa_task_id."⟩,
        runTrace [PipelineOp.genCode 111 [], PipelineOp.genTests 222 []]) :=
  ⟨by decide,
    (c9_namespace_isolation [PipelineOp.genCode 111 [], PipelineOp.genTests 222 []]
      "task_id_111" "some tests" "some code").1 (by decide)⟩

/-! ## Claim C10 -/

/-- Claim C10: for a fixed registry and identifier, both run steps return the
same outcome for every artifact string (the `code` / `tests` argument is never
read), and on the valid path the status is the fixed `"All tests passed."`
sentinel. -/
theorem c10_run_tests_artifact_independent (reg : Registry) (id a b : String) :
    run_tests reg id a = run_tests reg id b ∧
    run_tests_qa reg id a = run_tests_qa reg id b ∧
    (id ∈ reg.task_ids → (run_tests reg id a).1.status = "All tests passed.") ∧
    (id ∈ reg.qa_task_ids → (run_tests_qa reg id a).1.status = "All tests passed.") := by
  refine ⟨rfl, rfl, ?_, ?_⟩
  · intro h
    simp [run_tests, h]
  · intro h
    simp [run_tests_qa, h]

/-- Witness for C10: with `task_id_1` registered, `run_tests` reports
`"All tests passed."` regardless of the artifact. -/
theorem c10_witness :
    "task_id_1" ∈ (Registry.mk ["task_id_1"] []).task_ids ∧
    (run_tests (Registry.mk ["task_id_1"] []) "task_id_1" "artifact A").1.status =
      "All tests passed." :=
  ⟨by decide,
    (c10_run_tests_artifact_independent (Registry.mk ["task_id_1"] [])
      "task_id_1" "artifact A" "artifact B").2.2.1 (by decide)⟩

/-! ## Claim C1 -/

/-- Claim C1 (evaluation at the failing input): in `agent_builder/agent.py`
the module-level name `run_tests` is re-bound at lines 102-124 to the
coding-task variant, which consults `task_ids`.  Immediately after
`generate_tests` issues `qa_task_id_1234567` into `qa_task_ids`, that
effective `run_tests` therefore rejects the freshly issued identifier with
`"Error: Invalid task_id."` — while the shadowed QA variant of lines 53-74
(whose docstring states the module's intent) accepts it.  So the QA half of
the validity-gate claim fails on the module as written. -/
theorem c1_fresh_qa_id_rejected_by_shadowing_run_tests :
    (run_tests (generate_tests 1234567 Registry.init []).2
        (generate_tests 1234567 Registry.init []).1.qa_task_id "tests").1.status =
      "Error: Invalid task_id." ∧
    (run_tests_qa (generate_tests 1234567 Registry.init []).2
        (generate_tests 1234567 Registry.init []).1.qa_task_id "tests").1.status =
      "All tests passed." := by decide

/-! ## Claim C2 -/

/-- Counterexample to claim C2: `random.randint` can repeat a draw, and the
generation step performs no collision check, so two `generate_code` calls
with the same draw return the same identifier — the identifiers issued within
a run are not pairwise distinct. -/
theorem c2_counterexample :
    (generate_code 1234567 Registry.init []).1.task_id =
      (generate_code 1234567 (generate_code 1234567 Registry.init []).2 []).1.task_id ∧
    ¬ (issuedTaskIds
        [PipelineOp.genCode 1234567 [], PipelineOp.genCode 1234567 []]).Nodup := by
  decide

/-- Claim C2 as amended: within a run, the identifiers returned by the
generation steps are pairwise distinct within their namespace whenever the
underlying random draws of that namespace are pairwise distinct (the rendered
identifier is injective in the draw); equal draws yield equal identifiers. -/
theorem c2_ids_distinct_of_distinct_draws (ops : List PipelineOp)
    (h1 : (taskDraws ops).Nodup) (h2 : (qaDraws ops).Nodup) :
    (issuedTaskIds ops).Nodup ∧ (issuedQaTaskIds ops).Nodup :=
  ⟨List.Nodup.map taskIdOf_injective h1, List.Nodup.map qaTaskIdOf_injective h2⟩

/-- Witness for the amended C2 on a concrete run with distinct draws. -/
theorem c2_witness :
    (taskDraws [PipelineOp.genCode 1 [], PipelineOp.genCode 2 [],
        PipelineOp.genTests 3 []]).Nodup ∧
    (issuedTaskIds [PipelineOp.genCode 1 [], PipelineOp.genCode 2 [],
        PipelineOp.genTests 3 []]).Nodup :=
  ⟨by decide,
    (c2_ids_distinct_of_distinct_draws
      [PipelineOp.genCode 1 [], PipelineOp.genCode 2 [], PipelineOp.genTests 3 []]
      (by decide) (by decide)).1⟩

/-! ## Claim C3 -/

set_option maxRecDepth 4000 in
/-- Counterexample to claim C3: on the malformed details map `{}` — all the
documented required keys (`language`, `requirements`, `constraints`) are
absent — `generate_code` does not return a structured error value; it
succeeds with the ordinary record, substituting the `'N/A'` placeholder for
each missing key.  (The source has no error path at all: `CodeResult` mirrors
the returned dict, which has no error field.) -/
theorem c3_counterexample :
    (generate_code 1234567 Registry.init []).1 =
      ⟨"task_id_1234567",
       "# Auto-generated code for task task_id_1234567\n# Language: N/A\n# Requirements: N/A\n# Constraints: N/A\n\ndef solution_function():\n    # TODO: Implement the solution here\n    pass\n",
       [("task_id", "task_id_1234567")]⟩ := by decide

/-- Claim C3 as amended: the generation steps never fail.  On a details map
missing every documented key they succeed exactly as on the empty map, with
`'N/A'` placeholders in the artifact, and they still issue and return a fresh
identifier. -/
theorem c3_generate_total_with_defaults (draw : Nat) (reg : Registry) (td : Details)
    (h1 : td.lookup "language" = none) (h2 : td.lookup "requirements" = none)
    (h3 : td.lookup "constraints" = none) (h4 : td.lookup "feature" = none)
    (h5 : td.lookup "test_requirements" = none) :
    (generate_code draw reg td).1.task_id = taskIdOf draw ∧
    (generate_code draw reg td).1.code = (generate_code draw reg []).1.code ∧
    (generate_tests draw reg td).1.qa_task_id = qaTaskIdOf draw ∧
    (generate_tests draw reg td).1.tests = (generate_tests draw reg []).1.tests := by
  refine ⟨rfl, ?_, rfl, ?_⟩
  · simp [generate_code, setKey, getD, List.lookup, h1, h2, h3]
  · simp [generate_tests, setKey, getD, List.lookup, h4, h5, h3]

/-- Witness for the amended C3 on a concrete malformed details map. -/
theorem c3_witness :
    ([("foo", "bar")] : Details).lookup "language" = none ∧
    (generate_code 42 Registry.init [("foo", "bar")]).1.code =
      (generate_code 42 Registry.init []).1.code :=
  ⟨by decide,
    (c3_generate_total_with_defaults 42 Registry.init [("foo", "bar")]
      (by decide) (by decide) (by decide) (by decide) (by decide)).2.1⟩

/-! ## Claim C4 -/

/-- Counterexample to claim C4: the caller-supplied details map is mutated by
the callee.  `generate_code` executes `task_details['task_id'] = task_id` on
the caller's dict (dicts are passed by reference), so after
`generate_code({})` the caller's map — returned unshared-nowhere as the
`task_details` field of the result — is no longer empty and carries the
freshly stamped `task_id` key. -/
theorem c4_counterexample :
    (generate_code 1234567 Registry.init []).1.task_details ≠ ([] : Details) ∧
    ((generate_code 1234567 Registry.init []).1.task_details).lookup "task_id" =
      some "task_id_1234567" := by decide

/-- Claim C4 as amended: pipeline records are shared by reference, not passed
by value — for every call, the details map the caller observes after the call
is its original map extended in place with the freshly issued identifier under
the `task_id` (resp. `qa_task_id`) key. -/
theorem c4_generate_stamps_caller_details (draw : Nat) (reg : Registry) (td : Details) :
    (generate_code draw reg td).1.task_details = setKey td "task_id" (taskIdOf draw) ∧
    ((generate_code draw reg td).1.task_details).lookup "task_id" = some (taskIdOf draw) ∧
    (generate_tests draw reg td).1.qa_details = setKey td "qa_task_id" (qaTaskIdOf draw) ∧
    ((generate_tests draw reg td).1.qa_details).lookup "qa_task_id" =
      some (qaTaskIdOf draw) := by
  refine ⟨rfl, ?_, rfl, ?_⟩
  · simp [generate_code, setKey, List.lookup]
  · simp [generate_tests, setKey, List.lookup]

/-! ## Claim C5 -/

/-- Counterexample to claim C5: the `async for` loop of `stream` yields one
output event per runner event and does not stop after a terminal one, so over
arbitrary finite underlying sequences the claimed shape fails — an empty
sequence yields no terminal event at all, and a final response followed by a
further event yields an event after the terminal one. -/
theorem c5_counterexample :
    streamShape (stream "Processing the QA request..." []) = false ∧
    streamShape (stream "Processing the QA request..."
      [⟨true, none⟩, ⟨false, none⟩]) = false ∧
    stream "Processing the QA request..." [⟨true, none⟩, ⟨false, none⟩] =
      [TurnEvent.complete (ResponseVal.text ""),
       TurnEvent.progress "Processing the QA request..."] := by decide

/-- Claim C5 as amended: `stream` yields exactly one event per underlying
runner event, terminal iff that event is a final response; consequently,
whenever the underlying sequence contains exactly one final-response event
and it comes last, the produced sequence is zero or more non-terminal events
followed by exactly one terminal event with nothing after it, in FIFO order. -/
theorem c5_stream_shape_of_single_final_last (updates : String)
    (events : List AdkEvent) (h : oneFinalLast events = true) :
    streamShape (stream updates events) = true := by
  induction events with
  | nil => simp [oneFinalLast] at h
  | cons e rest ih =>
    cases rest with
    | nil =>
      simp only [oneFinalLast] at h
      simp [stream, streamEventOf, streamShape, h, TurnEvent.is_task_complete]
    | cons r rs =>
      simp only [oneFinalLast, Bool.and_eq_true, Bool.not_eq_true'] at h
      obtain ⟨h1, h2⟩ := h
      have ih2 := ih h2
      simp only [stream, List.map_cons] at ih2 ⊢
      have he : streamEventOf updates e = TurnEvent.progress updates := by
        simp [streamEventOf, h1]
      rw [he]
      simpa [streamShape, TurnEvent.is_task_complete] using ih2

/-- Witness for the amended C5: a progress event followed by one final
response streams as one non-terminal event and one last terminal event. -/
theorem c5_witness :
    oneFinalLast [AdkEvent.mk false none,
      AdkEvent.mk true (some (Content.mk [Part.mk (some "done") none]))] = true ∧
    streamShape (stream "Processing the SDE request..."
      [AdkEvent.mk false none,
        AdkEvent.mk true (some (Content.mk [Part.mk (some "done") none]))]) = true :=
  ⟨by decide, c5_stream_shape_of_single_final_last _ _ (by decide)⟩

/-! ## Claim C6 -/

/-- Claim C6: `invoke` returns the textual parts of the final response (the
last event) joined by newlines, and returns the empty string — as a value,
not a fault — when the runner produced no events, the last event carries no
content, or the content has no parts. -/
theorem c6_invoke_final_response_text (events : List AdkEvent) :
    (invoke [] = "") ∧
    (∀ e, events.getLast? = some e → e.content = none → invoke events = "") ∧
    (∀ e c, events.getLast? = some e → e.content = some c → c.parts = [] →
      invoke events = "") ∧
    (∀ e c, events.getLast? = some e → e.content = some c →
      invoke events = String.intercalate "\n" (partTexts c.parts)) := by
  refine ⟨rfl, ?_, ?_, ?_⟩
  · intro e h1 h2
    simp [invoke, h1, h2]
  · intro e c h1 h2 h3
    simp [invoke, h1, h2, h3]
  · intro e c h1 h2
    by_cases hp : c.parts = []
    · simp [invoke, h1, h2, hp, partTexts, String.intercalate]
    · simp [invoke, h1, h2, List.isEmpty_iff, hp]

/-- Witness for C6: the falsy parts (`None` text, empty text, pure function
response) are dropped and the remaining texts are joined with a newline. -/
theorem c6_witness :
    invoke [AdkEvent.mk false none,
      AdkEvent.mk true (some (Content.mk [Part.mk (some "a") none,
        Part.mk (some "") none, Part.mk none (some "fr"),
        Part.mk (some "b") none]))] = "a\nb" := by
  have h := (c6_invoke_final_response_text [AdkEvent.mk false none,
      AdkEvent.mk true (some (Content.mk [Part.mk (some "a") none,
        Part.mk (some "") none, Part.mk none (some "fr"),
        Part.mk (some "b") none]))]).2.2.2
    (AdkEvent.mk true (some (Content.mk [Part.mk (some "a") none,
      Part.mk (some "") none, Part.mk none (some "fr"),
      Part.mk (some "b") none])))
    (Content.mk [Part.mk (some "a") none, Part.mk (some "") none,
      Part.mk none (some "fr"), Part.mk (some "b") none])
    (by decide) (by decide)
  rw [h]
  decide

/-! ## Claim C8 -/

/-- Claim C8: the finalize steps are pure total functions.  In this embedding
`return_solution` and `return_feedback` read no registry and return the same
output for the same inputs definitionally (the source bodies touch no module
state); every field of the output is drawn from the inputs; a missing
`task_id` / `code` / `status` key defaults to the empty string and a missing
`qa_task_id` defaults to the empty string (with the sentinel
`'No status provided'` inside the feedback text), never an error. -/
theorem c8_finalize_pure_passthrough_defaults (td ci tr qd ti : Details)
    (fi : Option String) :
    ((ci.lookup "task_id" = none → (return_solution td ci tr).task_id = "") ∧
     (ci.lookup "code" = none → (return_solution td ci tr).code = "") ∧
     (tr.lookup "status" = none → (return_solution td ci tr).test_status = "") ∧
     (return_solution td ci tr).task_details = td) ∧
    ((qd.lookup "qa_task_id" = none → (return_feedback qd ti fi).qa_task_id = "") ∧
     (return_feedback qd ti fi).qa_task_id = getD qd "qa_task_id" "") := by
  refine ⟨⟨?_, ?_, ?_, rfl⟩, ?_, rfl⟩ <;> intro h <;>
    simp [return_solution, return_feedback, getD, h]

/-- Witness for C8 on concrete inputs with the read keys absent. -/
theorem c8_witness :
    (([] : Details).lookup "task_id" = none) ∧
    (return_solution [("feature", "login")] [] []).task_id = "" ∧
    (return_solution [("feature", "login")] [] []).task_details =
      [("feature", "login")] :=
  ⟨by decide,
    (c8_finalize_pure_passthrough_defaults [("feature", "login")] [] [] [] []
      none).1.1 (by decide),
    (c8_finalize_pure_passthrough_defaults [("feature", "login")] [] [] [] []
      none).1.2.2.2⟩

end Pdlc
